import Mathlib

/-!
Verification of the BabyBlur image-generation backend.

This file gives a shallow embedding of the backend's request pipeline:
the `/generate-image` route (multer upload middleware configuration and
its error mapping), the `generateBabyImage` controller, the prompt
table, the two provider calls (OpenAI and Replicate), the temporary-file
cleanup, and the app-level global error handler.  Outbound network
behaviour is an oracle (`Network`); the temporary-file store is an
explicit state (`FS`); environment variables are an explicit record
(`GenEnv`).  Theorems at the end settle the specification claims.
-/

set_option maxHeartbeats 1000000
set_option maxRecDepth 100000
set_option linter.unusedVariables false

namespace BabyBlur

/-- Environment variables read by the backend.  `none` models an unset
variable; `some ""` models a variable set to the empty string (falsy in
JavaScript, like `undefined`). -/
structure GenEnv where
  OPENAI_API_KEY : Option String
  DEMO_MODE : Option String
  DEMO_IMAGE_URL : Option String
  AI_PROVIDER : Option String
  REPLICATE_API_TOKEN : Option String
  MAX_FILE_SIZE : Option Nat
  MAX_FILES : Option Nat
deriving Repr, DecidableEq

/-- JavaScript falsiness of a string-valued environment variable or
field: unset (`undefined`) and the empty string are falsy. -/
def jsFalsy : Option String → Bool
  | none => true
  | some s => s == ""

/-- JavaScript `v || d` for a possibly-absent string `v`: the default
`d` is used when `v` is absent or empty. -/
def jsOrStr (v : Option String) (d : String) : String :=
  match v with
  | none => d
  | some s => if s == "" then d else s

/-- JavaScript `parseInt(v) || d` for a numeric environment variable:
the default is used when the variable is unset (or unparseable, modelled
as `none`). -/
def jsOrNat (v : Option Nat) (d : Nat) : Nat :=
  match v with
  | none => d
  | some n => n

/-- One uploaded file handle as produced by the upload middleware
(`req.files[i]`): the temporary path on disk, the generated filename,
the client-declared metadata, the byte size, and the stored bytes. -/
structure UploadedFile where
  path : String
  filename : String
  originalname : Option String
  mimetype : Option String
  size : Nat
  content : List Nat
deriving Repr, DecidableEq

/-- Request body fields relevant to the controller. -/
structure ReqBody where
  transformationType : Option String
deriving Repr, DecidableEq

/-- The controller's view of a request: accepted files plus body. -/
structure GenRequest where
  files : List UploadedFile
  body : ReqBody
deriving Repr, DecidableEq

/-- The temporary-file store: which paths currently exist, and which
paths `unlinkSync` would fail on (modelling filesystem errors). -/
structure FS where
  present : List String
  unlinkFails : List String
deriving Repr, DecidableEq

/-- Payload of the `data` field of a success envelope.  The demo-mode
envelope omits `transformationType` and `provider` and carries
`demo: true`; the normal success envelope is the reverse. -/
structure RespData where
  imageUrl : String
  prompt : String
  transformationType : Option String
  timestamp : String
  provider : Option String
  demo : Option Bool
deriving Repr, DecidableEq

/-- A JSON response envelope together with its HTTP status code. -/
structure Response where
  status : Nat
  success : Bool
  error : Option String
  message : String
  data : Option RespData
deriving Repr, DecidableEq

/-- The part of an upstream HTTP error visible to the controller's
catch block: `error.response.status`, and the optional-chained
`error.response.data?.error?.message` / `...?.code` (flattened here). -/
structure RespInfo where
  status : Nat
  errMessage : Option String
  errCode : Option String
deriving Repr, DecidableEq

/-- A thrown JavaScript error: its `message`, and its `response` field
when the error came from an HTTP client call (absent otherwise). -/
structure JsError where
  message : String
  response : Option RespInfo
deriving Repr, DecidableEq

/-- The body of the outbound OpenAI image-generation request. -/
structure OpenAIRequestBody where
  model : String
  prompt : String
  n : Nat
  size : String
  quality : String
  style : String
deriving Repr, DecidableEq

/-- One image record in the OpenAI response (`response.data.data[i]`). -/
structure OpenAIImage where
  url : String
deriving Repr, DecidableEq

/-- The OpenAI response body: `{ data: [...] }`. -/
structure OpenAIResponseData where
  data : List OpenAIImage
deriving Repr, DecidableEq

/-- The input of the outbound Replicate prediction request. -/
structure ReplicateInput where
  version : String
  prompt : String
  width : Nat
  height : Nat
  num_outputs : Nat
  scheduler : String
  num_inference_steps : Nat
  guidance_scale : ℚ
  prompt_strength : ℚ
  refine : String
  refine_steps : Nat
deriving Repr, DecidableEq

/-- Oracle for the Replicate prediction flow: either the client library
throws during create/wait, or the prediction completes with a final
status string and output list (`null` output modelled as `[]`). -/
inductive ReplicateOutcome where
  | throws (e : JsError)
  | completes (finalStatus : String) (output : List String)
deriving Repr, DecidableEq

/-- Oracle for outbound network behaviour during one request. -/
structure Network where
  openai : Except JsError OpenAIResponseData
  replicate : ReplicateOutcome
deriving Repr

/-- The fixed prompt table of `generatePrompt`, keyed by transformation
identifier. -/
def prompts : List (String × String) :=
  [ ("baby_blur", "A candid iPhone selfie photo showing a complete family of three people: two parents with their small child around 4 years old. All three faces clearly visible, smiling naturally. Portrait orientation, photorealistic quality."),
    ("avatar", "A high-quality 3D Pixar-style avatar character based on the person in the photo. Cute, stylized, colorful, professional digital art style. Clean background, front-facing view, vibrant colors, Disney/Pixar animation quality."),
    ("age_progression", "A photorealistic portrait showing the same person aged 20 years older. Natural aging process, realistic wrinkles, mature features, same facial structure and characteristics, professional portrait photography quality."),
    ("age_regression", "A photorealistic portrait showing the same person as a young child around 8 years old. Maintain same facial features and characteristics, innocent child-like expression, soft lighting, portrait photography quality."),
    ("pet_generator", "A cute, friendly dog that would perfectly match the personality of the person in the photo. The dog should have similar facial expressions and personality traits. High-quality pet photography, adorable, heartwarming."),
    ("couple_generator", "A photorealistic portrait of an attractive person who would be the perfect romantic partner match for the person in the photo. Complementary features, similar age, attractive, warm smile, professional portrait photography."),
    ("style_anime", "Transform the person into a beautiful high-quality anime character. Japanese anime art style, detailed, vibrant colors, expressive eyes, professional anime illustration quality."),
    ("style_painting", "Transform the person into a classical oil painting portrait. Renaissance painting style, masterpiece quality, rich colors, artistic brushwork, museum-quality classical art."),
    ("style_cartoon", "Transform the person into a fun cartoon character. Colorful, exaggerated features, friendly expression, professional cartoon illustration style, vibrant and playful.") ]

/-- `generatePrompt(transformationType, imageCount)`: look the type up
in the prompt table; identifiers without an own table entry fall back
to the avatar prompt.  The image count is accepted but unused, as in
the source.  This computes the string value the pipeline uses; the
full JavaScript bracket-access semantics of the same line, including
members inherited from `Object.prototype`, is `jsPromptLookup`
below. -/
def generatePrompt (transformationType : String) (imageCount : Nat) : String :=
  match prompts.lookup transformationType with
  | some p => p
  | none => (prompts.lookup "avatar").getD ""

/-- The property names every plain object literal inherits from
`Object.prototype` in Node: bracket access with one of these names
yields the inherited member (a function, or for `__proto__` the
`Object.prototype` object itself), all of which are truthy. -/
def objectPrototypeKeys : List String :=
  [ "constructor", "hasOwnProperty", "isPrototypeOf", "propertyIsEnumerable",
    "toLocaleString", "toString", "valueOf", "__proto__",
    "__defineGetter__", "__defineSetter__", "__lookupGetter__", "__lookupSetter__" ]

/-- The value of `prompts[transformationType] || prompts['avatar']`:
either one of the literal's own string values (or the avatar fallback
string), or a truthy non-string member inherited from
`Object.prototype`. -/
inductive JsLookupResult where
  | str (s : String)
  | inheritedMember (name : String)
deriving Repr, DecidableEq

/-- Faithful model of the lookup `prompts[transformationType] ||
prompts['avatar']` on the object literal: an own key yields its string
value; a name inherited from `Object.prototype` yields that truthy
inherited member (so the `||` does not fall through to the avatar
prompt); only names that are neither give `undefined` and fall back to
the avatar prompt. -/
def jsPromptLookup (transformationType : String) : JsLookupResult :=
  match prompts.lookup transformationType with
  | some p => .str p
  | none =>
      if transformationType ∈ objectPrototypeKeys then
        .inheritedMember transformationType
      else
        .str ((prompts.lookup "avatar").getD "")

/-- The fixed body `callOpenAIAPI` posts to the OpenAI generations
endpoint: only the prompt varies. -/
def openAIRequestBody (prompt : String) : OpenAIRequestBody :=
  { model := "dall-e-3", prompt := prompt, n := 1, size := "1024x1792",
    quality := "hd", style := "natural" }

/-- The fixed SDXL prediction input `callReplicateAPI` submits: only
the prompt varies. -/
def replicateInputFor (prompt : String) : ReplicateInput :=
  { version := "39ed52f2a78e934b3ba6e2a89f5b1c712de7dfea535525255b1aa35c5565e08b",
    prompt := prompt, width := 768, height := 1344, num_outputs := 1,
    scheduler := "K_EULER", num_inference_steps := 20,
    guidance_scale := 7.5, prompt_strength := 0.8,
    refine := "expert_ensemble_refiner", refine_steps := 5 }

/-- Test that one character list starts with another. -/
def charsStartWith : List Char → List Char → Bool
  | [], _ => true
  | _ :: _, [] => false
  | p :: ps, c :: cs => p == c && charsStartWith ps cs

/-- Test that a character list occurs contiguously inside another. -/
def charsContain (pat : List Char) : List Char → Bool
  | [] => charsStartWith pat []
  | c :: cs => charsStartWith pat (c :: cs) || charsContain pat cs

/-- Substring test used for the Replicate fallback:
`error.message.includes('ReadableStream')`. -/
def containsReadableStream (s : String) : Bool :=
  charsContain "ReadableStream".data s.data

/-- The stock photo URL substituted by `callReplicateAPI` on the known
ReadableStream client-library defect. -/
def replicateFallbackUrl : String :=
  "https://images.unsplash.com/photo-1544005313-94ddf0286df2?w=768&h=1344&fit=crop&crop=face"

/-- The stock photo URL used by demo mode when `DEMO_IMAGE_URL` is not
configured. -/
def demoStockUrl : String :=
  "https://images.unsplash.com/photo-1544005313-94ddf0286df2?w=400&h=600&fit=crop&crop=face"

/-- `callOpenAIAPI(prompt, files)`: posts the fixed text-to-image body
(the uploaded files are not part of the request) and yields whatever
the network returns.  The second component records the outbound request
bodies actually sent. -/
def callOpenAIAPI (prompt : String) (files : List UploadedFile) (net : Network) :
    Except JsError OpenAIResponseData × List OpenAIRequestBody :=
  (net.openai, [openAIRequestBody prompt])

/-- `callReplicateAPI(prompt, files)`: fails fast on a missing or
placeholder token (before any network call); otherwise submits the
fixed SDXL prediction input (files are not part of the request), waits,
and extracts the first output URL.  Any error raised inside the try
block whose message contains `ReadableStream` is replaced by the stock
fallback URL; other errors propagate.  The second component records the
prediction inputs actually sent. -/
def callReplicateAPI (env : GenEnv) (prompt : String) (files : List UploadedFile)
    (net : Network) : Except JsError String × List ReplicateInput :=
  if jsFalsy env.REPLICATE_API_TOKEN || (env.REPLICATE_API_TOKEN == some "your_replicate_token_here") then
    (.error { message := "Replicate API token not configured", response := none }, [])
  else
    match net.replicate with
    | .throws e =>
        if containsReadableStream e.message then
          (.ok replicateFallbackUrl, [replicateInputFor prompt])
        else
          (.error e, [replicateInputFor prompt])
    | .completes st output =>
        if st == "succeeded" then
          match output with
          | u :: _ => (.ok u, [replicateInputFor prompt])
          | [] =>
              let failMsg := "Prediction failed with status: " ++ st
              if containsReadableStream failMsg then
                (.ok replicateFallbackUrl, [replicateInputFor prompt])
              else
                (.error { message := failMsg, response := none }, [replicateInputFor prompt])
        else
          let failMsg := "Prediction failed with status: " ++ st
          if containsReadableStream failMsg then
            (.ok replicateFallbackUrl, [replicateInputFor prompt])
          else
            (.error { message := failMsg, response := none }, [replicateInputFor prompt])

/-- `cleanupUploadedFiles(files)`: for each file in order, if its path
exists, call `unlinkSync` on it; a failing unlink is caught and logged
and leaves the file in place.  Returns the new store and the list of
paths `unlinkSync` was called on. -/
def cleanupUploadedFiles : List UploadedFile → FS → FS × List String
  | [], fs => (fs, [])
  | f :: rest, fs =>
      if f.path ∈ fs.present then
        if f.path ∈ fs.unlinkFails then
          let r := cleanupUploadedFiles rest fs
          (r.1, f.path :: r.2)
        else
          let fs1 : FS := { fs with present := fs.present.filter (fun q => q != f.path) }
          let r := cleanupUploadedFiles rest fs1
          (r.1, f.path :: r.2)
      else
        cleanupUploadedFiles rest fs

/-- The fixed catch-all failure envelope of the controller. -/
def genericFailureResponse : Response :=
  { status := 500, success := false, error := some "Image generation failed",
    message := "Unable to generate baby selfie. Please try again", data := none }

/-- The error mapping of the controller's catch block (lines 110-153 of
the controller): upstream 400 maps to 400 unless the upstream error
code is `billing_hard_limit_reached` (then 402 top-up); upstream 402
maps to 402 insufficient credits; upstream 429 maps to 429 rate limit;
everything else maps to the fixed generic 500. -/
def translateError (e : JsError) : Response :=
  match e.response with
  | some ri =>
      if ri.status == 400 then
        if ri.errCode == some "billing_hard_limit_reached" then
          { status := 402, success := false, error := some "Service temporarily unavailable",
            message := "AI image generation service needs account top-up. Please try again later.",
            data := none }
        else
          { status := 400, success := false, error := some "Invalid request to AI service",
            message := jsOrStr ri.errMessage "Please check your images and try again",
            data := none }
      else if ri.status == 402 then
        { status := 402, success := false, error := some "Insufficient credits",
          message := "AI service needs credits to generate images. Please try again later.",
          data := none }
      else if ri.status == 429 then
        { status := 429, success := false, error := some "Rate limit exceeded",
          message := "Too many requests. Please try again later", data := none }
      else genericFailureResponse
  | none => genericFailureResponse

/-- Replace the first underscore of a character list by a space. -/
def replaceFirstUnderscoreChars : List Char → List Char
  | [] => []
  | c :: cs => if c == '_' then ' ' :: cs else c :: replaceFirstUnderscoreChars cs

/-- JavaScript `transformationType.replace('_', ' ')`: replaces the
first underscore only. -/
def replaceFirstUnderscore (s : String) : String :=
  ⟨replaceFirstUnderscoreChars s.data⟩

/-- The success envelope of the controller (`res.json` at lines
80-90). -/
def successResponse (transformationType prompt provider url now : String) : Response :=
  { status := 200, success := true, error := none,
    message := replaceFirstUnderscore transformationType ++ " transformation generated successfully!",
    data := some { imageUrl := url, prompt := prompt,
                   transformationType := some transformationType, timestamp := now,
                   provider := some provider, demo := none } }

/-- The demo-mode success envelope (`res.json` at lines 44-53). -/
def demoResponse (env : GenEnv) (now : String) : Response :=
  { status := 200, success := true, error := none,
    message := "Baby selfie generated successfully! (Demo Mode)",
    data := some { imageUrl := jsOrStr env.DEMO_IMAGE_URL demoStockUrl,
                   prompt := "Demo mode - AI generation temporarily unavailable",
                   timestamp := now, transformationType := none, provider := none,
                   demo := some true } }

/-- The observable outcome of one request: the response, the final
temporary-file store, the outbound provider requests that were sent,
and the paths `unlinkSync` was called on. -/
structure HandlerResult where
  response : Response
  fs : FS
  openaiSent : List OpenAIRequestBody
  replicateSent : List ReplicateInput
  unlinkCalls : List String
deriving Repr, DecidableEq

/-- The controller's catch block: clean up the uploaded files, then map
the error through `translateError`. -/
def handleGenerationError (files : List UploadedFile) (e : JsError)
    (fs : FS) (openaiSent : List OpenAIRequestBody)
    (replicateSent : List ReplicateInput) : HandlerResult :=
  let r := cleanupUploadedFiles files fs
  { response := translateError e, fs := r.1, openaiSent := openaiSent,
    replicateSent := replicateSent, unlinkCalls := r.2 }

/-- The `generateBabyImage` controller.  Order of checks follows the
source: empty file list, then the OpenAI API key, then demo mode, then
provider dispatch.  On an OpenAI success whose `data` array is empty,
reading `data[0].url` raises a TypeError after the first cleanup; the
catch block then cleans up again (a no-op on already-deleted files) and
returns the generic 500. -/
def generateBabyImage (env : GenEnv) (req : GenRequest) (net : Network)
    (now : String) (fs : FS) : HandlerResult :=
  if req.files.isEmpty then
    { response := { status := 400, success := false, error := some "No images uploaded",
                    message := "Please upload at least 1 image (max 2)", data := none },
      fs := fs, openaiSent := [], replicateSent := [], unlinkCalls := [] }
  else if jsFalsy env.OPENAI_API_KEY then
    { response := { status := 500, success := false, error := some "API configuration error",
                    message := "Image generation service not properly configured", data := none },
      fs := fs, openaiSent := [], replicateSent := [], unlinkCalls := [] }
  else if env.DEMO_MODE == some "true" then
    let r := cleanupUploadedFiles req.files fs
    { response := demoResponse env now, fs := r.1, openaiSent := [],
      replicateSent := [], unlinkCalls := r.2 }
  else
    let transformationType := jsOrStr req.body.transformationType "baby_blur"
    let prompt := generatePrompt transformationType req.files.length
    let aiProvider := jsOrStr env.AI_PROVIDER "openai"
    if aiProvider == "replicate" then
      match callReplicateAPI env prompt req.files net with
      | (.ok url, sent) =>
          let r := cleanupUploadedFiles req.files fs
          { response := successResponse transformationType prompt aiProvider url now,
            fs := r.1, openaiSent := [], replicateSent := sent, unlinkCalls := r.2 }
      | (.error e, sent) => handleGenerationError req.files e fs [] sent
    else
      match callOpenAIAPI prompt req.files net with
      | (.ok resp, sent) =>
          let r := cleanupUploadedFiles req.files fs
          match resp.data with
          | img :: _ =>
              { response := successResponse transformationType prompt aiProvider img.url now,
                fs := r.1, openaiSent := sent, replicateSent := [], unlinkCalls := r.2 }
          | [] =>
              let r2 := cleanupUploadedFiles req.files r.1
              { response := genericFailureResponse, fs := r2.1, openaiSent := sent,
                replicateSent := [], unlinkCalls := r.2 ++ r2.2 }
      | (.error e, sent) => handleGenerationError req.files e fs sent []

/-- The global Express error handler of `index.js` (lines 51-58): a 500
envelope that copies the raised error's own message into the body. -/
def globalErrorHandler (e : JsError) : Response :=
  { status := 500, success := false, error := some "Internal server error",
    message := e.message, data := none }

/-- One multipart file part of an incoming request, together with the
collision-resistant destination path and filename the disk storage
would assign to it (timestamp + random suffix, chosen outside the
system). -/
structure Part where
  fieldname : String
  originalname : Option String
  mimetype : Option String
  size : Nat
  content : List Nat
  destPath : String
  destFilename : String
deriving Repr, DecidableEq

/-- Test that one character list ends with another. -/
def charsEndWith (pat s : List Char) : Bool :=
  charsStartWith pat.reverse s.reverse

/-- ASCII lower-casing of a character list, modelling the
case-insensitive flag of the route's extension regular expression. -/
def lowerChars (s : List Char) : List Char :=
  s.map (fun c => if c.toNat ≥ 65 && c.toNat ≤ 90 then Char.ofNat (c.toNat + 32) else c)

/-- Case-insensitive test for a known raster-image filename extension,
modelling the route's extension regular expression. -/
def hasImageExtension (n : String) : Bool :=
  let l := lowerChars n.data
  charsEndWith ".jpeg".data l || charsEndWith ".jpg".data l ||
  charsEndWith ".png".data l || charsEndWith ".gif".data l ||
  charsEndWith ".webp".data l || charsEndWith ".bmp".data l ||
  charsEndWith ".tiff".data l || charsEndWith ".svg".data l

/-- The route's `fileFilter`: accept when the declared MIME type starts
with `image/`, or the filename has an image extension, or the filename
is absent (falsy). -/
def fileFilterAccepts (p : Part) : Bool :=
  (match p.mimetype with
   | some m => charsStartWith "image/".data m.data
   | none => false) ||
  (match p.originalname with
   | some n => n != "" && hasImageExtension n
   | none => false) ||
  jsFalsy p.originalname

/-- Convert an accepted part into the uploaded-file handle the
controller sees. -/
def mkUploadedFile (p : Part) : UploadedFile :=
  { path := p.destPath, filename := p.destFilename,
    originalname := p.originalname, mimetype := p.mimetype,
    size := p.size, content := p.content }

/-- Outcome of the upload middleware: an accepted file list, a
`MulterError` with its code, or a plain error (the file-filter
rejection) with its message. -/
inductive MulterOutcome where
  | files (fs : List UploadedFile)
  | multerErr (code : String)
  | otherErr (message : String)
deriving Repr, DecidableEq

/-- Remove the already-stored files of an aborted request from the
store: models the storage layer's removal of uploaded files when the
middleware errors (the spec's requirement that rejected parts are
cleaned up by the storage layer). -/
def removeStored (acc : List UploadedFile) (fs : FS) : FS :=
  { fs with present := fs.present.filter (fun q => !((acc.map UploadedFile.path).contains q)) }

/-- Modelled from the documented behaviour of the configured multer
middleware (an external library, not part of this repository's
sources): parts are processed in order; a part arriving once the
configured file count is reached aborts with `LIMIT_FILE_COUNT`; a part
with the wrong field name aborts with `LIMIT_UNEXPECTED_FILE`; a part
rejected by `fileFilter` aborts with the filter's plain error; a part
larger than the configured size limit aborts with `LIMIT_FILE_SIZE`;
on any abort, files already stored for this request are removed by the
storage layer.  Accepted parts are written to their destination
paths. -/
def multerProcess (maxSize maxFiles : Nat) :
    List Part → Nat → List UploadedFile → FS → MulterOutcome × FS
  | [], _, acc, fs => (.files acc, fs)
  | p :: rest, count, acc, fs =>
      if count ≥ maxFiles then
        (.multerErr "LIMIT_FILE_COUNT", removeStored acc fs)
      else if p.fieldname != "images" then
        (.multerErr "LIMIT_UNEXPECTED_FILE", removeStored acc fs)
      else if !fileFilterAccepts p then
        (.otherErr "Only image files are allowed (jpeg, jpg, png, gif, webp)", removeStored acc fs)
      else if p.size > maxSize then
        (.multerErr "LIMIT_FILE_SIZE", removeStored acc fs)
      else
        multerProcess maxSize maxFiles rest (count + 1) (acc ++ [mkUploadedFile p])
          { fs with present := fs.present ++ [p.destPath] }

/-- The route's mapping of upload-middleware errors to responses
(lines 213-255 of the route file). -/
def uploadErrorResponse : MulterOutcome → Option Response
  | .multerErr code =>
      if code == "LIMIT_FILE_SIZE" then
        some { status := 413, success := false, error := some "File too large",
               message := "Each image must be smaller than 10MB", data := none }
      else if code == "LIMIT_FILE_COUNT" then
        some { status := 400, success := false, error := some "Too many files",
               message := "Maximum 2 images allowed", data := none }
      else if code == "LIMIT_UNEXPECTED_FILE" then
        some { status := 400, success := false, error := some "Unexpected field",
               message := "Use field name \x22images\x22 for file uploads", data := none }
      else
        some { status := 400, success := false, error := some "Upload error",
               message := code, data := none }
  | .otherErr m =>
      some { status := 400, success := false, error := some "Invalid file",
             message := m, data := none }
  | .files _ => none

/-- The full `POST /generate-image` route: run the upload middleware
with the configured limits; on a middleware error respond immediately
with the mapped envelope; otherwise hand the accepted files to the
controller. -/
def routeGenerateImage (env : GenEnv) (parts : List Part) (body : ReqBody)
    (net : Network) (now : String) (fs : FS) : HandlerResult :=
  let maxSize := jsOrNat env.MAX_FILE_SIZE (10 * 1024 * 1024)
  let maxFiles := jsOrNat env.MAX_FILES 2
  match multerProcess maxSize maxFiles parts 0 [] fs with
  | (.files ufs, fs1) => generateBabyImage env { files := ufs, body := body } net now fs1
  | (outcome, fs1) =>
      { response := (uploadErrorResponse outcome).getD genericFailureResponse,
        fs := fs1, openaiSent := [], replicateSent := [], unlinkCalls := [] }

/-! Concrete fixtures used by witness and counterexample theorems. -/

/-- A first accepted upload. -/
def wFile : UploadedFile :=
  { path := "uploads/babyblur-100-1.jpg", filename := "babyblur-100-1.jpg",
    originalname := some "me.jpg", mimetype := some "image/jpeg", size := 2048,
    content := [255, 216, 7] }

/-- A second accepted upload with different bytes. -/
def wFile2 : UploadedFile :=
  { path := "uploads/babyblur-100-2.jpg", filename := "babyblur-100-2.jpg",
    originalname := some "partner.jpg", mimetype := some "image/jpeg", size := 4096,
    content := [255, 216, 9, 9] }

/-- A store holding exactly the two uploads, with no unlink failures. -/
def wFS : FS := { present := [wFile.path, wFile2.path], unlinkFails := [] }

/-- A network oracle where both providers succeed. -/
def wNetOk : Network :=
  { openai := .ok { data := [{ url := "https://oai.example/img.png" }] },
    replicate := .completes "succeeded" ["https://rep.example/img.png"] }

/-- Demo mode on, provider set to replicate, but no OpenAI key. -/
def wEnvDemoNoKey : GenEnv :=
  { OPENAI_API_KEY := none, DEMO_MODE := some "true",
    DEMO_IMAGE_URL := some "https://demo.example/x.png",
    AI_PROVIDER := some "replicate", REPLICATE_API_TOKEN := some "tok",
    MAX_FILE_SIZE := none, MAX_FILES := none }

/-- A plain OpenAI configuration with key set and demo off. -/
def wEnvOpenAI : GenEnv :=
  { OPENAI_API_KEY := some "sk-test", DEMO_MODE := none, DEMO_IMAGE_URL := none,
    AI_PROVIDER := none, REPLICATE_API_TOKEN := some "tok",
    MAX_FILE_SIZE := none, MAX_FILES := none }

/-- An empty request body (no transformation type given). -/
def wBody : ReqBody := { transformationType := none }

/-- A one-file request. -/
def wReq : GenRequest := { files := [wFile], body := wBody }

/-- A thrown client error exhibiting the stream-handling defect. -/
def wStreamErr : JsError :=
  { message := "Response body object should not be disturbed or locked: ReadableStream uploading",
    response := none }

/-- A thrown client error without the defect marker. -/
def wPlainErr : JsError :=
  { message := "Request failed with status code 500", response := none }

/-- Upstream 429 error fixture. -/
def wRI429 : RespInfo :=
  { status := 429, errMessage := some "Rate limit reached for images per minute.",
    errCode := some "rate_limit_exceeded" }

/-- The thrown error carrying the upstream 429. -/
def wErr429 : JsError :=
  { message := "Request failed with status code 429", response := some wRI429 }

/-- Upstream 400 error fixture with the billing hard-limit code. -/
def wRIBilling : RespInfo :=
  { status := 400, errMessage := some "Billing hard limit has been reached",
    errCode := some "billing_hard_limit_reached" }

/-- The thrown error carrying the upstream billing-limit 400. -/
def wErrBilling : JsError :=
  { message := "Request failed with status code 400", response := some wRIBilling }

/-- Network oracles for the two error-mapping scenarios. -/
def wNet429 : Network :=
  { openai := .error wErr429, replicate := .completes "failed" [] }

/-- Network oracle for the billing-limit scenario. -/
def wNetBilling : Network :=
  { openai := .error wErrBilling, replicate := .completes "failed" [] }

/-- An internal exception whose message carries filesystem detail. -/
def wInternalError : JsError :=
  { message := "ENOENT: no such file or directory, open ./uploads/babyblur-1.jpg",
    response := none }

/-- A failure with no upstream HTTP status (a client timeout). -/
def wTimeoutErr : JsError :=
  { message := "timeout of 60000ms exceeded", response := none }

/-- Network oracle for the timeout scenario. -/
def wNetTimeout : Network :=
  { openai := .error wTimeoutErr, replicate := .completes "failed" [] }

/-- A two-file request with an unknown transformation type. -/
def wReqCyber : GenRequest :=
  { files := [wFile, wFile2], body := { transformationType := some "cyberpunk" } }

/-- Demo mode enabled with the OpenAI key configured. -/
def wEnvDemo : GenEnv :=
  { OPENAI_API_KEY := some "sk-test", DEMO_MODE := some "true",
    DEMO_IMAGE_URL := some "https://demo.example/x.png",
    AI_PROVIDER := none, REPLICATE_API_TOKEN := none,
    MAX_FILE_SIZE := none, MAX_FILES := none }

/-- A valid small image part. -/
def wPartA : Part :=
  { fieldname := "images", originalname := some "a.jpg", mimetype := some "image/jpeg",
    size := 2048, content := [1, 2], destPath := "uploads/babyblur-300-1.jpg",
    destFilename := "babyblur-300-1.jpg" }

/-- A second valid part. -/
def wPartB : Part :=
  { wPartA with
      originalname := some "b.jpg",
      destPath := "uploads/babyblur-300-2.jpg",
      destFilename := "babyblur-300-2.jpg" }

/-- A third valid part. -/
def wPartC : Part :=
  { wPartA with
      originalname := some "c.jpg",
      destPath := "uploads/babyblur-300-3.jpg",
      destFilename := "babyblur-300-3.jpg" }

/-- An 11 MiB part, over the 10 MiB default limit. -/
def wPartBig : Part :=
  { wPartA with
      originalname := some "big.jpg",
      size := 11 * 1024 * 1024,
      destPath := "uploads/babyblur-300-4.jpg",
      destFilename := "babyblur-300-4.jpg" }

/-- The empty temporary store. -/
def wFSEmpty : FS := { present := [], unlinkFails := [] }

/-- No OpenAI key configured, demo mode off. -/
def wEnvNoKey : GenEnv :=
  { OPENAI_API_KEY := none, DEMO_MODE := none, DEMO_IMAGE_URL := none,
    AI_PROVIDER := none, REPLICATE_API_TOKEN := none,
    MAX_FILE_SIZE := none, MAX_FILES := none }

/-! Helper lemmas about the cleanup pass. -/

/-- Cleanup never resurrects a path: a path absent from the store stays
absent. -/
theorem cleanup_present_mono {p : String} (files : List UploadedFile) (fs : FS)
    (hp : p ∉ fs.present) : p ∉ (cleanupUploadedFiles files fs).1.present := by
  induction files generalizing fs with
  | nil => exact hp
  | cons g rest ih =>
      by_cases h1 : g.path ∈ fs.present
      · by_cases h2 : g.path ∈ fs.unlinkFails
        · simp only [cleanupUploadedFiles, if_pos h1, if_pos h2]
          exact ih fs hp
        · simp only [cleanupUploadedFiles, if_pos h1, if_neg h2]
          refine ih _ ?_
          intro hmem
          exact hp (List.mem_of_mem_filter hmem)
      · simp only [cleanupUploadedFiles, if_neg h1]
        exact ih fs hp

/-- Cleanup does not change which paths fail to unlink. -/
theorem cleanup_unlinkFails_eq (files : List UploadedFile) (fs : FS) :
    (cleanupUploadedFiles files fs).1.unlinkFails = fs.unlinkFails := by
  induction files generalizing fs with
  | nil => rfl
  | cons g rest ih =>
      by_cases h1 : g.path ∈ fs.present
      · by_cases h2 : g.path ∈ fs.unlinkFails
        · simp only [cleanupUploadedFiles, if_pos h1, if_pos h2]
          exact ih fs
        · simp only [cleanupUploadedFiles, if_pos h1, if_neg h2]
          exact ih _
      · simp only [cleanupUploadedFiles, if_neg h1]
        exact ih fs

/-- After cleanup, the path of any file in the list whose unlink does
not fail is gone from the store. -/
theorem cleanup_removes {f : UploadedFile} (files : List UploadedFile) (fs : FS)
    (hf : f ∈ files) (hok : f.path ∉ fs.unlinkFails) :
    f.path ∉ (cleanupUploadedFiles files fs).1.present := by
  induction files generalizing fs with
  | nil => cases hf
  | cons g rest ih =>
      by_cases h1 : g.path ∈ fs.present
      · by_cases h2 : g.path ∈ fs.unlinkFails
        · simp only [cleanupUploadedFiles, if_pos h1, if_pos h2]
          rcases List.mem_cons.mp hf with rfl | hf2
          · exact absurd h2 hok
          · exact ih fs hf2 hok
        · simp only [cleanupUploadedFiles, if_pos h1, if_neg h2]
          rcases List.mem_cons.mp hf with rfl | hf2
          · apply cleanup_present_mono
            simp [List.mem_filter]
          · exact ih _ hf2 hok
      · simp only [cleanupUploadedFiles, if_neg h1]
        rcases List.mem_cons.mp hf with rfl | hf2
        · exact cleanup_present_mono rest fs h1
        · exact ih fs hf2 hok

/-- A path absent from the store is never unlinked by cleanup. -/
theorem cleanup_log_not_present {p : String} (files : List UploadedFile) (fs : FS)
    (hp : p ∉ fs.present) : p ∉ (cleanupUploadedFiles files fs).2 := by
  induction files generalizing fs with
  | nil => simp [cleanupUploadedFiles]
  | cons g rest ih =>
      by_cases h1 : g.path ∈ fs.present
      · by_cases h2 : g.path ∈ fs.unlinkFails
        · simp only [cleanupUploadedFiles, if_pos h1, if_pos h2, List.mem_cons]
          rintro (rfl | hmem)
          · exact hp h1
          · exact ih fs hp hmem
        · simp only [cleanupUploadedFiles, if_pos h1, if_neg h2, List.mem_cons]
          rintro (rfl | hmem)
          · exact hp h1
          · refine ih _ ?_ hmem
            intro hmem2
            exact hp (List.mem_of_mem_filter hmem2)
      · simp only [cleanupUploadedFiles, if_neg h1]
        exact ih fs hp

/-- A path whose unlink does not fail is unlinked at most once by
cleanup. -/
theorem cleanup_log_count {p : String} (files : List UploadedFile) (fs : FS)
    (hok : p ∉ fs.unlinkFails) : ((cleanupUploadedFiles files fs).2.count p) ≤ 1 := by
  induction files generalizing fs with
  | nil => simp [cleanupUploadedFiles]
  | cons g rest ih =>
      by_cases h1 : g.path ∈ fs.present
      · by_cases h2 : g.path ∈ fs.unlinkFails
        · have hne : p ≠ g.path := fun h => hok (h ▸ h2)
          simp only [cleanupUploadedFiles, if_pos h1, if_pos h2]
          rw [List.count_cons_of_ne hne]
          exact ih fs hok
        · by_cases hpg : p = g.path
          · subst hpg
            simp only [cleanupUploadedFiles, if_pos h1, if_neg h2]
            rw [List.count_cons_self]
            have hgone : g.path ∉ (cleanupUploadedFiles rest
                { fs with present := fs.present.filter (fun q => q != g.path) }).2 := by
              apply cleanup_log_not_present
              simp [List.mem_filter]
            rw [List.count_eq_zero.mpr hgone]
          · simp only [cleanupUploadedFiles, if_pos h1, if_neg h2]
            rw [List.count_cons_of_ne hpg]
            exact ih _ hok
      · simp only [cleanupUploadedFiles, if_neg h1]
        exact ih fs hok

/-- Cleanup does call unlink on the path of any listed file that is
present in the store. -/
theorem cleanup_logs_of_present {f : UploadedFile} (files : List UploadedFile) (fs : FS)
    (hf : f ∈ files) (hp : f.path ∈ fs.present) :
    f.path ∈ (cleanupUploadedFiles files fs).2 := by
  induction files generalizing fs with
  | nil => cases hf
  | cons g rest ih =>
      by_cases h1 : g.path ∈ fs.present
      · by_cases h2 : g.path ∈ fs.unlinkFails
        · simp only [cleanupUploadedFiles, if_pos h1, if_pos h2, List.mem_cons]
          rcases List.mem_cons.mp hf with rfl | hf2
          · exact Or.inl rfl
          · by_cases hfp : f.path = g.path
            · exact Or.inl hfp
            · exact Or.inr (ih fs hf2 hp)
        · simp only [cleanupUploadedFiles, if_pos h1, if_neg h2, List.mem_cons]
          rcases List.mem_cons.mp hf with rfl | hf2
          · exact Or.inl rfl
          · by_cases hfp : f.path = g.path
            · exact Or.inl hfp
            · refine Or.inr (ih _ hf2 ?_)
              simp [List.mem_filter, hp, hfp]
      · simp only [cleanupUploadedFiles, if_neg h1]
        rcases List.mem_cons.mp hf with rfl | hf2
        · exact absurd hp h1
        · exact ih fs hf2 hp

/-- Lookup in an association list misses every key outside the key
column. -/
theorem lookup_eq_none_of_not_mem_keys (l : List (String × String)) (t : String)
    (h : t ∉ l.map Prod.fst) : l.lookup t = none := by
  induction l with
  | nil => rfl
  | cons kv rest ih =>
      obtain ⟨k, v⟩ := kv
      simp only [List.map_cons, List.mem_cons] at h
      push_neg at h
      obtain ⟨h1, h2⟩ := h
      simp only [List.lookup, beq_eq_false_iff_ne.mpr h1]
      exact ih h2

/-- A nonempty list is not `isEmpty`. -/
theorem isEmpty_false_of_ne_nil {l : List UploadedFile} (h : l ≠ []) :
    l.isEmpty = false := by
  cases hl : l with
  | nil => exact absurd hl h
  | cons a t => rfl

/-- On the OpenAI path, a provider error makes the handler answer with
the catch block's translation of that error. -/
theorem generate_openai_error_response (env : GenEnv) (req : GenRequest)
    (net : Network) (now : String) (fs : FS) (e : JsError)
    (hfiles : req.files ≠ [])
    (hkey : jsFalsy env.OPENAI_API_KEY = false)
    (hdemo : env.DEMO_MODE ≠ some "true")
    (hprov : jsOrStr env.AI_PROVIDER "openai" ≠ "replicate")
    (hnet : net.openai = .error e) :
    (generateBabyImage env req net now fs).response = translateError e := by
  have hne := isEmpty_false_of_ne_nil hfiles
  have hd : (env.DEMO_MODE == some "true") = false := beq_eq_false_iff_ne.mpr hdemo
  have hp : ((jsOrStr env.AI_PROVIDER "openai") == "replicate") = false :=
    beq_eq_false_iff_ne.mpr hprov
  simp [generateBabyImage, hne, hkey, hd, hp, callOpenAIAPI, hnet, handleGenerationError]

/-! Claim theorems. -/

/-- C6: for a request whose multipart body contains zero file parts,
the response is 400 with the no-images-uploaded error, and no outbound
provider request is sent. -/
theorem zero_files_rejected_before_provider_call (env : GenEnv) (body : ReqBody)
    (net : Network) (now : String) (fs : FS) :
    (routeGenerateImage env [] body net now fs).response.status = 400 ∧
    (routeGenerateImage env [] body net now fs).response.error = some "No images uploaded" ∧
    (routeGenerateImage env [] body net now fs).response.success = false ∧
    (routeGenerateImage env [] body net now fs).openaiSent = [] ∧
    (routeGenerateImage env [] body net now fs).replicateSent = [] := by
  simp [routeGenerateImage, multerProcess, generateBabyImage]

/-- C10: with at least one accepted file and a falsy `OPENAI_API_KEY`,
the handler answers 500 with the API-configuration-error envelope and
sends nothing to either provider, regardless of the demo flag and of
the selected provider (both are arbitrary in `env` here). -/
theorem missing_openai_key_fails_every_generation_path (env : GenEnv) (req : GenRequest)
    (net : Network) (now : String) (fs : FS)
    (hfiles : req.files ≠ [])
    (hkey : jsFalsy env.OPENAI_API_KEY = true) :
    (generateBabyImage env req net now fs).response.status = 500 ∧
    (generateBabyImage env req net now fs).response.error = some "API configuration error" ∧
    (generateBabyImage env req net now fs).response.success = false ∧
    (generateBabyImage env req net now fs).openaiSent = [] ∧
    (generateBabyImage env req net now fs).replicateSent = [] := by
  have hne := isEmpty_false_of_ne_nil hfiles
  simp [generateBabyImage, hne, hkey]

/-- Witness for C10 at a concrete input: demo mode enabled and the
replicate provider selected, yet the missing key still yields the 500
configuration error. -/
theorem missing_openai_key_fails_every_generation_path_witness :
    (generateBabyImage wEnvDemoNoKey wReq wNetOk "2024-01-01T00:00:00.000Z" wFS).response.status = 500 ∧
    (generateBabyImage wEnvDemoNoKey wReq wNetOk "2024-01-01T00:00:00.000Z" wFS).response.error = some "API configuration error" ∧
    (generateBabyImage wEnvDemoNoKey wReq wNetOk "2024-01-01T00:00:00.000Z" wFS).response.success = false ∧
    (generateBabyImage wEnvDemoNoKey wReq wNetOk "2024-01-01T00:00:00.000Z" wFS).openaiSent = [] ∧
    (generateBabyImage wEnvDemoNoKey wReq wNetOk "2024-01-01T00:00:00.000Z" wFS).replicateSent = [] :=
  missing_openai_key_fails_every_generation_path wEnvDemoNoKey wReq wNetOk
    "2024-01-01T00:00:00.000Z" wFS (by decide) (by decide)

/-- C9: on the replicate path with a configured token, an error thrown
by the prediction client whose message contains `ReadableStream` is
swallowed and replaced by the fixed stock-photo URL; any other thrown
error is rethrown unchanged. -/
theorem replicate_stream_defect_fallback (env : GenEnv) (prompt : String)
    (files : List UploadedFile) (net : Network) (e : JsError)
    (htok1 : jsFalsy env.REPLICATE_API_TOKEN = false)
    (htok2 : env.REPLICATE_API_TOKEN ≠ some "your_replicate_token_here")
    (hnet : net.replicate = .throws e) :
    (containsReadableStream e.message = true →
      (callReplicateAPI env prompt files net).1 = .ok replicateFallbackUrl) ∧
    (containsReadableStream e.message = false →
      (callReplicateAPI env prompt files net).1 = .error e) := by
  have h2 : (env.REPLICATE_API_TOKEN == some "your_replicate_token_here") = false :=
    beq_eq_false_iff_ne.mpr htok2
  constructor <;> intro h <;> simp [callReplicateAPI, htok1, h2, hnet, h]

/-- Witness for C9 at concrete inputs: the defect error is replaced by
the stock URL and the plain error is rethrown. -/
theorem replicate_stream_defect_fallback_witness :
    (callReplicateAPI wEnvOpenAI "p" [wFile]
        { openai := .error wPlainErr, replicate := .throws wStreamErr }).1 =
      .ok replicateFallbackUrl ∧
    (callReplicateAPI wEnvOpenAI "p" [wFile]
        { openai := .error wPlainErr, replicate := .throws wPlainErr }).1 =
      .error wPlainErr :=
  ⟨(replicate_stream_defect_fallback wEnvOpenAI "p" [wFile]
      { openai := .error wPlainErr, replicate := .throws wStreamErr } wStreamErr
      (by decide) (by decide) rfl).1 (by decide),
   (replicate_stream_defect_fallback wEnvOpenAI "p" [wFile]
      { openai := .error wPlainErr, replicate := .throws wPlainErr } wPlainErr
      (by decide) (by decide) rfl).2 (by decide)⟩

/-- C2: on a provider failure carrying an HTTP status, the handler maps
upstream 400 to response 400, except that the upstream error code
`billing_hard_limit_reached` yields 402 with the service-needs-top-up
message; upstream 429 yields 429 with the rate-limit-exceeded message;
upstream 402 yields 402 with the insufficient-credits message. -/
theorem provider_error_status_mapping (env : GenEnv) (req : GenRequest)
    (net : Network) (now : String) (fs : FS) (e : JsError) (ri : RespInfo)
    (hfiles : req.files ≠ [])
    (hkey : jsFalsy env.OPENAI_API_KEY = false)
    (hdemo : env.DEMO_MODE ≠ some "true")
    (hprov : jsOrStr env.AI_PROVIDER "openai" ≠ "replicate")
    (hnet : net.openai = .error e)
    (hresp : e.response = some ri) :
    (ri.status = 400 → ri.errCode = some "billing_hard_limit_reached" →
      (generateBabyImage env req net now fs).response.status = 402 ∧
      (generateBabyImage env req net now fs).response.error = some "Service temporarily unavailable" ∧
      (generateBabyImage env req net now fs).response.message =
        "AI image generation service needs account top-up. Please try again later.") ∧
    (ri.status = 400 → ri.errCode ≠ some "billing_hard_limit_reached" →
      (generateBabyImage env req net now fs).response.status = 400 ∧
      (generateBabyImage env req net now fs).response.error = some "Invalid request to AI service") ∧
    (ri.status = 429 →
      (generateBabyImage env req net now fs).response.status = 429 ∧
      (generateBabyImage env req net now fs).response.error = some "Rate limit exceeded" ∧
      (generateBabyImage env req net now fs).response.message =
        "Too many requests. Please try again later") ∧
    (ri.status = 402 →
      (generateBabyImage env req net now fs).response.status = 402 ∧
      (generateBabyImage env req net now fs).response.error = some "Insufficient credits" ∧
      (generateBabyImage env req net now fs).response.message =
        "AI service needs credits to generate images. Please try again later.") := by
  have hmain := generate_openai_error_response env req net now fs e hfiles hkey hdemo hprov hnet
  rw [hmain]
  refine ⟨?_, ?_, ?_, ?_⟩
  · intro h4 hb
    simp [translateError, hresp, h4, hb]
  · intro h4 hb
    have hb2 : (ri.errCode == some "billing_hard_limit_reached") = false :=
      beq_eq_false_iff_ne.mpr hb
    simp [translateError, hresp, h4, hb2]
  · intro h
    simp [translateError, hresp, h]
  · intro h
    simp [translateError, hresp, h]

/-- Witness for C2 at concrete inputs: a stubbed provider 429 yields a
429 response, and a stubbed provider 400 with the billing hard-limit
code yields 402, not 400. -/
theorem provider_error_status_mapping_witness :
    (generateBabyImage wEnvOpenAI wReq wNet429 "T" wFS).response.status = 429 ∧
    (generateBabyImage wEnvOpenAI wReq wNetBilling "T" wFS).response.status = 402 :=
  ⟨((provider_error_status_mapping wEnvOpenAI wReq wNet429 "T" wFS wErr429 wRI429
      (by decide) (by decide) (by decide) (by decide) rfl rfl).2.2.1 (by decide)).1,
   ((provider_error_status_mapping wEnvOpenAI wReq wNetBilling "T" wFS wErrBilling wRIBilling
      (by decide) (by decide) (by decide) (by decide) rfl rfl).1 (by decide) (by decide)).1⟩

/-- C7 counterexample: the app-level global error handler copies the
raised error's own message verbatim into the response body, so there
is a path on which a response body includes internal exception detail
(the claim's final clause is false of the code as a whole). -/
theorem global_handler_echoes_internal_error_message :
    (globalErrorHandler wInternalError).message = wInternalError.message ∧
    (globalErrorHandler wInternalError).message =
      "ENOENT: no such file or directory, open ./uploads/babyblur-1.jpg" ∧
    (globalErrorHandler wInternalError).status = 500 :=
  ⟨rfl, rfl, rfl⟩

/-- C7 amended: on the generation path, every provider failure not
carrying upstream status 400, 402 or 429 is answered with exactly the
fixed generic generation-failed envelope — a constant, so no exception
detail or stack trace from `e` can appear in it; the exception to the
no-detail clause is the app-level global error handler, which echoes
the error message (but never a stack trace). -/
theorem other_failures_yield_fixed_generic_500 (env : GenEnv) (req : GenRequest)
    (net : Network) (now : String) (fs : FS) (e : JsError)
    (hfiles : req.files ≠ [])
    (hkey : jsFalsy env.OPENAI_API_KEY = false)
    (hdemo : env.DEMO_MODE ≠ some "true")
    (hprov : jsOrStr env.AI_PROVIDER "openai" ≠ "replicate")
    (hnet : net.openai = .error e)
    (hst : ∀ ri, e.response = some ri → ri.status ≠ 400 ∧ ri.status ≠ 402 ∧ ri.status ≠ 429) :
    (generateBabyImage env req net now fs).response = genericFailureResponse := by
  rw [generate_openai_error_response env req net now fs e hfiles hkey hdemo hprov hnet]
  cases hr : e.response with
  | none => simp [translateError, hr]
  | some ri =>
      obtain ⟨h1, h2, h3⟩ := hst ri hr
      simp [translateError, hr, beq_eq_false_iff_ne.mpr h1,
            beq_eq_false_iff_ne.mpr h2, beq_eq_false_iff_ne.mpr h3]

/-- Witness for the amended C7 at a concrete input: a provider timeout
maps to the fixed generic 500 envelope. -/
theorem other_failures_yield_fixed_generic_500_witness :
    (generateBabyImage wEnvOpenAI wReq wNetTimeout "T" wFS).response = genericFailureResponse :=
  other_failures_yield_fixed_generic_500 wEnvOpenAI wReq wNetTimeout "T" wFS wTimeoutErr
    (by decide) (by decide) (by decide) (by decide) rfl
    (fun ri h => Option.noConfusion h)

/-- C5 counterexample: `toString` is outside the nine-element table,
yet the code's `prompts['toString'] || prompts['avatar']` hits the
truthy member inherited from `Object.prototype` and returns it, not
the avatar prompt — refuting the claim's universal fallback. -/
theorem prototype_member_shadows_avatar_fallback :
    "toString" ∉ prompts.map Prod.fst ∧
    jsPromptLookup "toString" = JsLookupResult.inheritedMember "toString" ∧
    jsPromptLookup "toString" ≠ JsLookupResult.str (generatePrompt "avatar" 1) := by
  refine ⟨by decide, rfl, by decide⟩

/-- C5 amended: a transformation type outside the nine keys of the
prompt table that is also not the name of a member inherited from
`Object.prototype` falls back to the avatar prompt with no error, and
a request carrying it with valid uploads and a successful stubbed
provider still returns 200. -/
theorem unknown_non_prototype_transformation_falls_back (t : String)
    (ht : t ∉ prompts.map Prod.fst) (hproto : t ∉ objectPrototypeKeys)
    (n : Nat) (env : GenEnv) (req : GenRequest)
    (net : Network) (now : String) (fs : FS) (img : OpenAIImage) (more : List OpenAIImage)
    (hfiles : req.files ≠ [])
    (hkey : jsFalsy env.OPENAI_API_KEY = false)
    (hdemo : env.DEMO_MODE ≠ some "true")
    (hprov : jsOrStr env.AI_PROVIDER "openai" ≠ "replicate")
    (htt : jsOrStr req.body.transformationType "baby_blur" = t)
    (hnet : net.openai = .ok { data := img :: more }) :
    jsPromptLookup t = JsLookupResult.str (generatePrompt "avatar" n) ∧
    generatePrompt t n = generatePrompt "avatar" n ∧
    (generateBabyImage env req net now fs).response.status = 200 ∧
    (generateBabyImage env req net now fs).response.success = true := by
  have hlook : prompts.lookup t = none := lookup_eq_none_of_not_mem_keys _ _ ht
  refine ⟨?_, ?_, ?_, ?_⟩
  · simp only [jsPromptLookup, hlook]
    rw [if_neg hproto]
    rfl
  · simp only [generatePrompt, hlook]
    rfl
  all_goals
    have hne := isEmpty_false_of_ne_nil hfiles
    have hd : (env.DEMO_MODE == some "true") = false := beq_eq_false_iff_ne.mpr hdemo
    have hp : ((jsOrStr env.AI_PROVIDER "openai") == "replicate") = false :=
      beq_eq_false_iff_ne.mpr hprov
    simp [generateBabyImage, hne, hkey, hd, hp, callOpenAIAPI, hnet, successResponse]

/-- Witness for the amended C5 at a concrete input: `cyberpunk` is
neither in the table nor an inherited member name, gets the avatar
prompt, and the request still succeeds with 200. -/
theorem unknown_non_prototype_transformation_falls_back_witness :
    jsPromptLookup "cyberpunk" = JsLookupResult.str (generatePrompt "avatar" 2) ∧
    generatePrompt "cyberpunk" 2 = generatePrompt "avatar" 2 ∧
    (generateBabyImage wEnvOpenAI wReqCyber wNetOk "T" wFS).response.status = 200 ∧
    (generateBabyImage wEnvOpenAI wReqCyber wNetOk "T" wFS).response.success = true :=
  unknown_non_prototype_transformation_falls_back "cyberpunk" (by decide) (by decide)
    2 wEnvOpenAI wReqCyber wNetOk "T" wFS { url := "https://oai.example/img.png" } []
    (by decide) (by decide) (by decide) (by decide) (by decide) rfl

/-- C1 counterexample: with the demo-mode flag enabled but
`OPENAI_API_KEY` unset, a request with one accepted file is answered
500 with no data (so no `demo: true` and no placeholder URL), because
the key check precedes the demo-mode check. -/
theorem demo_mode_not_honoured_without_key :
    (generateBabyImage wEnvDemoNoKey wReq wNetOk "T" wFS).response.status = 500 ∧
    (generateBabyImage wEnvDemoNoKey wReq wNetOk "T" wFS).response.success = false ∧
    (generateBabyImage wEnvDemoNoKey wReq wNetOk "T" wFS).response.data = none ∧
    wEnvDemoNoKey.DEMO_MODE = some "true" ∧ wReq.files ≠ [] := by
  decide

/-- C1 amended: when the demo-mode flag is enabled and `OPENAI_API_KEY`
is set (non-falsy), the handler sends nothing to either provider,
cleans up the uploaded files, and returns the 200 demo envelope whose
data carries `demo: true` and the configured placeholder URL (the
fixed stock URL when none is configured). -/
theorem demo_mode_bypasses_provider (env : GenEnv) (req : GenRequest)
    (net : Network) (now : String) (fs : FS)
    (hfiles : req.files ≠ [])
    (hkey : jsFalsy env.OPENAI_API_KEY = false)
    (hdemo : env.DEMO_MODE = some "true") :
    (generateBabyImage env req net now fs).response.status = 200 ∧
    (generateBabyImage env req net now fs).response.success = true ∧
    (generateBabyImage env req net now fs).response.data =
      some { imageUrl := jsOrStr env.DEMO_IMAGE_URL demoStockUrl,
             prompt := "Demo mode - AI generation temporarily unavailable",
             transformationType := none, timestamp := now, provider := none,
             demo := some true } ∧
    (generateBabyImage env req net now fs).openaiSent = [] ∧
    (generateBabyImage env req net now fs).replicateSent = [] ∧
    (∀ f ∈ req.files, f.path ∉ fs.unlinkFails →
      f.path ∉ (generateBabyImage env req net now fs).fs.present) := by
  have hne := isEmpty_false_of_ne_nil hfiles
  have hd : (env.DEMO_MODE == some "true") = true := by simp [hdemo]
  refine ⟨?_, ?_, ?_, ?_, ?_, ?_⟩
  · simp [generateBabyImage, hne, hkey, hd, demoResponse]
  · simp [generateBabyImage, hne, hkey, hd, demoResponse]
  · simp [generateBabyImage, hne, hkey, hd, demoResponse]
  · simp [generateBabyImage, hne, hkey, hd]
  · simp [generateBabyImage, hne, hkey, hd]
  · simp only [generateBabyImage, hne, hkey, hd]
    intro f hf hok
    simp only [Bool.false_eq_true, if_false, if_true]
    exact cleanup_removes req.files fs hf hok

/-- Witness for the amended C1 at a concrete input: demo flag on, key
set, two accepted uploads — 200 demo envelope with the configured URL,
no provider traffic, files cleaned up. -/
theorem demo_mode_bypasses_provider_witness :
    (generateBabyImage wEnvDemo wReqCyber wNetOk "T" wFS).response.status = 200 ∧
    (generateBabyImage wEnvDemo wReqCyber wNetOk "T" wFS).response.success = true ∧
    (generateBabyImage wEnvDemo wReqCyber wNetOk "T" wFS).response.data =
      some { imageUrl := jsOrStr wEnvDemo.DEMO_IMAGE_URL demoStockUrl,
             prompt := "Demo mode - AI generation temporarily unavailable",
             transformationType := none, timestamp := "T", provider := none,
             demo := some true } ∧
    (generateBabyImage wEnvDemo wReqCyber wNetOk "T" wFS).openaiSent = [] ∧
    (generateBabyImage wEnvDemo wReqCyber wNetOk "T" wFS).replicateSent = [] ∧
    (∀ f ∈ wReqCyber.files, f.path ∉ wFS.unlinkFails →
      f.path ∉ (generateBabyImage wEnvDemo wReqCyber wNetOk "T" wFS).fs.present) :=
  demo_mode_bypasses_provider wEnvDemo wReqCyber wNetOk "T" wFS
    (by decide) (by decide) rfl

/-- With a usable token, every branch of the Replicate call submits
exactly one prediction input, determined by the prompt alone. -/
theorem callReplicateAPI_sent (env : GenEnv) (p : String) (files : List UploadedFile)
    (net : Network)
    (htok : (jsFalsy env.REPLICATE_API_TOKEN ||
      (env.REPLICATE_API_TOKEN == some "your_replicate_token_here")) = false) :
    (callReplicateAPI env p files net).2 = [replicateInputFor p] := by
  cases hrep : net.replicate with
  | throws e =>
      cases hrs : containsReadableStream e.message <;>
        simp [callReplicateAPI, htok, hrep, hrs]
  | completes st out =>
      cases hst : st == "succeeded" with
      | true =>
          cases out with
          | nil =>
              cases hrs : containsReadableStream ("Prediction failed with status: " ++ st) <;>
                simp [callReplicateAPI, htok, hrep, hst, hrs]
          | cons u us => simp [callReplicateAPI, htok, hrep, hst]
      | false =>
          cases hrs : containsReadableStream ("Prediction failed with status: " ++ st) <;>
            simp [callReplicateAPI, htok, hrep, hst, hrs]

/-- On the replicate dispatch branch the handler sends nothing to
OpenAI and exactly the Replicate call's own traffic to Replicate. -/
theorem generate_sent_replicate_branch (env : GenEnv) (req : GenRequest) (net : Network)
    (now : String) (fs : FS)
    (hfe : req.files.isEmpty = false)
    (hkey : jsFalsy env.OPENAI_API_KEY = false)
    (hdemo : (env.DEMO_MODE == some "true") = false)
    (hprov : ((jsOrStr env.AI_PROVIDER "openai") == "replicate") = true) :
    (generateBabyImage env req net now fs).openaiSent = [] ∧
    (generateBabyImage env req net now fs).replicateSent =
      (callReplicateAPI env
        (generatePrompt (jsOrStr req.body.transformationType "baby_blur") req.files.length)
        req.files net).2 := by
  have heta : callReplicateAPI env
      (generatePrompt (jsOrStr req.body.transformationType "baby_blur") req.files.length)
      req.files net = ((callReplicateAPI env
      (generatePrompt (jsOrStr req.body.transformationType "baby_blur") req.files.length)
      req.files net).1, (callReplicateAPI env
      (generatePrompt (jsOrStr req.body.transformationType "baby_blur") req.files.length)
      req.files net).2) := rfl
  cases hr : (callReplicateAPI env
      (generatePrompt (jsOrStr req.body.transformationType "baby_blur") req.files.length)
      req.files net).1 with
  | ok url =>
      constructor <;>
      · simp only [generateBabyImage, hfe, hkey, hdemo, hprov]
        rw [heta, hr]
        simp
  | error e =>
      constructor <;>
      · simp only [generateBabyImage, hfe, hkey, hdemo, hprov]
        rw [heta, hr]
        simp [handleGenerationError]

/-- On the OpenAI dispatch branch the handler posts exactly one body,
determined by the prompt alone, and nothing to Replicate. -/
theorem generate_sent_openai_branch (env : GenEnv) (req : GenRequest) (net : Network)
    (now : String) (fs : FS)
    (hfe : req.files.isEmpty = false)
    (hkey : jsFalsy env.OPENAI_API_KEY = false)
    (hdemo : (env.DEMO_MODE == some "true") = false)
    (hprov : ((jsOrStr env.AI_PROVIDER "openai") == "replicate") = false) :
    (generateBabyImage env req net now fs).openaiSent =
      [openAIRequestBody
        (generatePrompt (jsOrStr req.body.transformationType "baby_blur") req.files.length)] ∧
    (generateBabyImage env req net now fs).replicateSent = [] := by
  cases hnet : net.openai with
  | ok resp =>
      cases hdata : resp.data with
      | nil =>
          constructor <;>
            simp [generateBabyImage, hfe, hkey, hdemo, hprov, callOpenAIAPI, hnet, hdata]
      | cons i rest =>
          constructor <;>
            simp [generateBabyImage, hfe, hkey, hdemo, hprov, callOpenAIAPI, hnet, hdata]
  | error e =>
      constructor <;>
        simp [generateBabyImage, hfe, hkey, hdemo, hprov, callOpenAIAPI, hnet,
              handleGenerationError]

/-- C4: the outbound provider traffic is a function of the request
body (transformation type) and the number of files only: two requests
with the same body and equally many accepted files produce identical
provider request bodies, whatever the bytes, names, sizes and paths of
the files and whatever the state of the temporary store. -/
theorem provider_request_independent_of_file_contents (env : GenEnv) (body : ReqBody)
    (net : Network) (now : String) (fs1 fs2 : FS)
    (files1 files2 : List UploadedFile)
    (hlen : files1.length = files2.length) :
    (generateBabyImage env { files := files1, body := body } net now fs1).openaiSent =
      (generateBabyImage env { files := files2, body := body } net now fs2).openaiSent ∧
    (generateBabyImage env { files := files1, body := body } net now fs1).replicateSent =
      (generateBabyImage env { files := files2, body := body } net now fs2).replicateSent := by
  cases files1 with
  | nil =>
      cases files2 with
      | nil => exact ⟨rfl, rfl⟩
      | cons b bs => simp at hlen
  | cons a as =>
      cases files2 with
      | nil => simp at hlen
      | cons b bs =>
          cases hkey : jsFalsy env.OPENAI_API_KEY with
          | true => constructor <;> simp [generateBabyImage, hkey]
          | false =>
              cases hdemo : env.DEMO_MODE == some "true" with
              | true => constructor <;> simp [generateBabyImage, hkey, hdemo]
              | false =>
                  cases hprov : (jsOrStr env.AI_PROVIDER "openai") == "replicate" with
                  | true =>
                      obtain ⟨ho1, hr1⟩ := generate_sent_replicate_branch env
                        { files := a :: as, body := body } net now fs1 rfl hkey hdemo hprov
                      obtain ⟨ho2, hr2⟩ := generate_sent_replicate_branch env
                        { files := b :: bs, body := body } net now fs2 rfl hkey hdemo hprov
                      refine ⟨by rw [ho1, ho2], ?_⟩
                      rw [hr1, hr2]
                      show (callReplicateAPI env
                          (generatePrompt (jsOrStr body.transformationType "baby_blur")
                            (a :: as).length) (a :: as) net).2 = _
                      rw [hlen]
                      rfl
                  | false =>
                      obtain ⟨ho1, hr1⟩ := generate_sent_openai_branch env
                        { files := a :: as, body := body } net now fs1 rfl hkey hdemo hprov
                      obtain ⟨ho2, hr2⟩ := generate_sent_openai_branch env
                        { files := b :: bs, body := body } net now fs2 rfl hkey hdemo hprov
                      refine ⟨?_, by rw [hr1, hr2]⟩
                      rw [ho1, ho2]
                      show [openAIRequestBody
                          (generatePrompt (jsOrStr body.transformationType "baby_blur")
                            (a :: as).length)] = _
                      rw [hlen]

/-- Witness for C4 at concrete inputs: two one-file requests whose
files differ in bytes, declared names, sizes and stored paths generate
identical provider traffic. -/
theorem provider_request_independent_of_file_contents_witness :
    (generateBabyImage wEnvOpenAI { files := [wFile], body := wBody } wNetOk "T" wFS).openaiSent =
      (generateBabyImage wEnvOpenAI { files := [wFile2], body := wBody } wNetOk "T"
        { present := [], unlinkFails := [] }).openaiSent ∧
    (generateBabyImage wEnvOpenAI { files := [wFile], body := wBody } wNetOk "T" wFS).replicateSent =
      (generateBabyImage wEnvOpenAI { files := [wFile2], body := wBody } wNetOk "T"
        { present := [], unlinkFails := [] }).replicateSent :=
  provider_request_independent_of_file_contents wEnvOpenAI wBody wNetOk "T" wFS
    { present := [], unlinkFails := [] } [wFile] [wFile2] (by decide)

/-- The uploaded-file view of a part list keeps the destination
paths. -/
theorem map_path_mkUploadedFile (l : List Part) :
    (l.map mkUploadedFile).map UploadedFile.path = l.map Part.destPath := by
  induction l with
  | nil => rfl
  | cons p ps ih => simp [ih, mkUploadedFile]

/-- Processing a fully accepted prefix of parts just accumulates their
files and stores them, leaving the rest to process. -/
theorem multerProcess_append_accepted (maxSize maxFiles : Nat) (pre rest : List Part)
    (count : Nat) (acc : List UploadedFile) (fs : FS)
    (hcount : count + pre.length ≤ maxFiles)
    (hacc : ∀ q ∈ pre, q.fieldname = "images" ∧ fileFilterAccepts q = true ∧ q.size ≤ maxSize) :
    multerProcess maxSize maxFiles (pre ++ rest) count acc fs =
      multerProcess maxSize maxFiles rest (count + pre.length)
        (acc ++ pre.map mkUploadedFile)
        { fs with present := fs.present ++ pre.map Part.destPath } := by
  induction pre generalizing count acc fs with
  | nil => simp
  | cons p ps ih =>
      obtain ⟨hf, hflt, hsz⟩ := hacc p (List.mem_cons_self p ps)
      have hlt : ¬ count ≥ maxFiles := by
        simp only [List.length_cons] at hcount
        omega
      have hfb : (p.fieldname != "images") = false := by simp [hf]
      have hfl : (!fileFilterAccepts p) = false := by simp [hflt]
      have hsb : ¬ p.size > maxSize := by omega
      simp only [List.cons_append, multerProcess, if_neg hlt, hfb, hfl, if_neg hsb,
                 Bool.false_eq_true, if_false]
      simp only [List.append_eq]
      rw [ih (count + 1) (acc ++ [mkUploadedFile p])
          { fs with present := fs.present ++ [p.destPath] }
          (by simp only [List.length_cons] at hcount; omega)
          (fun q hq => hacc q (List.mem_cons_of_mem p hq))]
      simp only [List.map_cons, List.append_assoc, List.singleton_append, List.length_cons]
      have harith : count + 1 + ps.length = count + (ps.length + 1) := by omega
      rw [harith]

/-- When the middleware aborts, removing the files it has just stored
restores the temporary store, provided their fresh paths were not
present before. -/
theorem removeStored_restores (acc : List UploadedFile) (base : List String) (u : List String)
    (h : ∀ q ∈ acc.map UploadedFile.path, q ∉ base) :
    (removeStored acc
      { present := base ++ acc.map UploadedFile.path, unlinkFails := u }).present = base := by
  simp only [removeStored, List.filter_append]
  have h1 : base.filter (fun q => !((acc.map UploadedFile.path).contains q)) = base := by
    apply List.filter_eq_self.mpr
    intro x hx
    simp only [Bool.not_eq_true']
    by_cases hc : x ∈ acc.map UploadedFile.path
    · exact absurd hx (h x hc)
    · cases hcc : (acc.map UploadedFile.path).contains x with
      | true => exact absurd (List.mem_of_elem_eq_true hcc) hc
      | false => rfl
  have h2 : (acc.map UploadedFile.path).filter
      (fun q => !((acc.map UploadedFile.path).contains q)) = [] := by
    apply List.filter_eq_nil_iff.mpr
    intro x hx
    simpa using hx
  rw [h1, h2, List.append_nil]

/-- C8: a part exceeding the configured size limit that the middleware
reaches (it sits among the accepted slots, after accepted parts) makes
the route answer 413 file-too-large, with the parts after it never
stored, no provider traffic and the store restored; and a request with
more valid parts than the configured count limit makes the route
answer 400 too-many-files, likewise with no provider traffic and the
store restored. -/
theorem upload_limit_errors (env : GenEnv) (body : ReqBody) (net : Network) (now : String) :
    (∀ (fs : FS) (pre : List Part) (p : Part) (post : List Part),
      (∀ q ∈ pre, q.fieldname = "images" ∧ fileFilterAccepts q = true ∧
        q.size ≤ jsOrNat env.MAX_FILE_SIZE (10 * 1024 * 1024)) →
      pre.length < jsOrNat env.MAX_FILES 2 →
      p.fieldname = "images" → fileFilterAccepts p = true →
      p.size > jsOrNat env.MAX_FILE_SIZE (10 * 1024 * 1024) →
      (∀ q ∈ pre, q.destPath ∉ fs.present) →
      (routeGenerateImage env (pre ++ p :: post) body net now fs).response.status = 413 ∧
      (routeGenerateImage env (pre ++ p :: post) body net now fs).response.error =
        some "File too large" ∧
      (routeGenerateImage env (pre ++ p :: post) body net now fs).openaiSent = [] ∧
      (routeGenerateImage env (pre ++ p :: post) body net now fs).replicateSent = [] ∧
      (routeGenerateImage env (pre ++ p :: post) body net now fs).fs.present = fs.present) ∧
    (∀ (fs : FS) (parts : List Part),
      (∀ q ∈ parts, q.fieldname = "images" ∧ fileFilterAccepts q = true ∧
        q.size ≤ jsOrNat env.MAX_FILE_SIZE (10 * 1024 * 1024)) →
      parts.length > jsOrNat env.MAX_FILES 2 →
      (∀ q ∈ parts, q.destPath ∉ fs.present) →
      (routeGenerateImage env parts body net now fs).response.status = 400 ∧
      (routeGenerateImage env parts body net now fs).response.error = some "Too many files" ∧
      (routeGenerateImage env parts body net now fs).openaiSent = [] ∧
      (routeGenerateImage env parts body net now fs).replicateSent = [] ∧
      (routeGenerateImage env parts body net now fs).fs.present = fs.present) := by
  constructor
  · intro fs pre p post hpre hcnt hfield hfilter hbig hfresh
    have hfb : (p.fieldname != "images") = false := by simp [hfield]
    have hfl : (!fileFilterAccepts p) = false := by simp [hfilter]
    have hstep : multerProcess (jsOrNat env.MAX_FILE_SIZE (10 * 1024 * 1024))
        (jsOrNat env.MAX_FILES 2) (pre ++ p :: post) 0 [] fs =
        (.multerErr "LIMIT_FILE_SIZE", removeStored (pre.map mkUploadedFile)
          { fs with present := fs.present ++ pre.map Part.destPath }) := by
      rw [multerProcess_append_accepted _ _ pre (p :: post) 0 [] fs (by omega) hpre]
      simp only [List.nil_append, Nat.zero_add]
      rw [multerProcess]
      rw [if_neg (by omega : ¬ pre.length ≥ jsOrNat env.MAX_FILES 2)]
      simp only [hfb, hfl, Bool.false_eq_true, if_false]
      rw [if_pos hbig]
    have hrem : (removeStored (pre.map mkUploadedFile)
        { fs with present := fs.present ++ pre.map Part.destPath }).present = fs.present := by
      have := removeStored_restores (pre.map mkUploadedFile) fs.present fs.unlinkFails ?_
      · rw [map_path_mkUploadedFile] at this
        exact this
      · rw [map_path_mkUploadedFile]
        intro q hq
        obtain ⟨r, hr, rfl⟩ := List.mem_map.mp hq
        exact hfresh r hr
    refine ⟨?_, ?_, ?_, ?_, ?_⟩ <;>
      simp [routeGenerateImage, hstep, uploadErrorResponse, hrem]
  · intro fs parts hall hlen hfresh
    obtain ⟨p, post, hdrop⟩ : ∃ p post, parts.drop (jsOrNat env.MAX_FILES 2) = p :: post := by
      cases hd : parts.drop (jsOrNat env.MAX_FILES 2) with
      | nil =>
          exfalso
          have hl := List.length_drop (jsOrNat env.MAX_FILES 2) parts
          rw [hd] at hl
          simp at hl
          omega
      | cons p post => exact ⟨p, post, rfl⟩
    have hsplit : parts.take (jsOrNat env.MAX_FILES 2) ++ p :: post = parts := by
      rw [← hdrop, List.take_append_drop]
    have htl : (parts.take (jsOrNat env.MAX_FILES 2)).length = jsOrNat env.MAX_FILES 2 := by
      rw [List.length_take]
      omega
    have hstep : multerProcess (jsOrNat env.MAX_FILE_SIZE (10 * 1024 * 1024))
        (jsOrNat env.MAX_FILES 2) parts 0 [] fs =
        (.multerErr "LIMIT_FILE_COUNT",
          removeStored ((parts.take (jsOrNat env.MAX_FILES 2)).map mkUploadedFile)
          { fs with present := fs.present ++
              (parts.take (jsOrNat env.MAX_FILES 2)).map Part.destPath }) := by
      conv_lhs => rw [← hsplit]
      rw [multerProcess_append_accepted _ _ _ (p :: post) 0 [] fs
          (by rw [Nat.zero_add, htl])
          (fun q hq => hall q (List.take_subset _ _ hq))]
      simp only [List.nil_append, Nat.zero_add]
      rw [multerProcess]
      rw [if_pos (by rw [htl] :
        (parts.take (jsOrNat env.MAX_FILES 2)).length ≥ jsOrNat env.MAX_FILES 2)]
    have hrem : (removeStored ((parts.take (jsOrNat env.MAX_FILES 2)).map mkUploadedFile)
        { fs with present := fs.present ++
            (parts.take (jsOrNat env.MAX_FILES 2)).map Part.destPath }).present = fs.present := by
      have := removeStored_restores ((parts.take (jsOrNat env.MAX_FILES 2)).map mkUploadedFile)
        fs.present fs.unlinkFails ?_
      · rw [map_path_mkUploadedFile] at this
        exact this
      · rw [map_path_mkUploadedFile]
        intro q hq
        obtain ⟨r, hr, rfl⟩ := List.mem_map.mp hq
        exact hfresh r (List.take_subset _ _ hr)
    refine ⟨?_, ?_, ?_, ?_, ?_⟩ <;>
      simp [routeGenerateImage, hstep, uploadErrorResponse]
    rw [← List.map_take, ← List.map_take]
    exact hrem

/-- Witness for C8 at concrete inputs: a valid part followed by an
11 MiB part gives 413 file-too-large, and three valid parts give 400
too-many-files. -/
theorem upload_limit_errors_witness :
    (routeGenerateImage wEnvOpenAI ([wPartA] ++ wPartBig :: []) wBody wNetOk "T"
      wFSEmpty).response.status = 413 ∧
    (routeGenerateImage wEnvOpenAI ([wPartA] ++ wPartBig :: []) wBody wNetOk "T"
      wFSEmpty).response.error = some "File too large" ∧
    (routeGenerateImage wEnvOpenAI [wPartA, wPartB, wPartC] wBody wNetOk "T"
      wFSEmpty).response.status = 400 ∧
    (routeGenerateImage wEnvOpenAI [wPartA, wPartB, wPartC] wBody wNetOk "T"
      wFSEmpty).response.error = some "Too many files" :=
  ⟨((upload_limit_errors wEnvOpenAI wBody wNetOk "T").1 wFSEmpty [wPartA] wPartBig []
      (by decide) (by decide) (by decide) (by decide) (by decide) (by decide)).1,
   ((upload_limit_errors wEnvOpenAI wBody wNetOk "T").1 wFSEmpty [wPartA] wPartBig []
      (by decide) (by decide) (by decide) (by decide) (by decide) (by decide)).2.1,
   ((upload_limit_errors wEnvOpenAI wBody wNetOk "T").2 wFSEmpty [wPartA, wPartB, wPartC]
      (by decide) (by decide) (by decide)).1,
   ((upload_limit_errors wEnvOpenAI wBody wNetOk "T").2 wFSEmpty [wPartA, wPartB, wPartC]
      (by decide) (by decide) (by decide)).2.1⟩

/-- C3 failing input: one valid upload with `OPENAI_API_KEY` unset.
The route stores the file and the controller answers 500 on the key
check, returning before any call to `cleanupUploadedFiles`, so the
temporary file remains in the store and unlink is never attempted —
the cleanup-after-every-response invariant fails on this path. -/
theorem missing_key_response_leaks_uploaded_file :
    (routeGenerateImage wEnvNoKey [wPartA] wBody wNetOk "T" wFSEmpty).response.status = 500 ∧
    (routeGenerateImage wEnvNoKey [wPartA] wBody wNetOk "T" wFSEmpty).response.error =
      some "API configuration error" ∧
    (routeGenerateImage wEnvNoKey [wPartA] wBody wNetOk "T" wFSEmpty).fs.present =
      [wPartA.destPath] ∧
    (routeGenerateImage wEnvNoKey [wPartA] wBody wNetOk "T" wFSEmpty).unlinkCalls = [] := by
  decide

end BabyBlur
